import Mathlib

set_option linter.unusedVariables false

/-!
Shallow embedding of the role-mapping synchronization core of the
opa-policy-api repository (Python/FastAPI + OPA), covering:

* app/models/role_mapping.py, app/schemas/role_mapping.py  — the RoleMapping entity
* app/repositories/role_mapping_repository.py — store operations
* app/services/role_mapping_service.py        — orchestration and OPA sync
* app/services/opa_service.py                 — engine client (health check, data push)
* app/routers/permissions.py                  — single-application permission evaluation

Python dicts are modelled as insertion-ordered association lists over
string keys.  The SQLAlchemy session is modelled by the list of live rows
together with an injected fault saying whether the commit fails for a
reason other than the unique constraint (IntegrityError is derived from
the constraint uq_app_env_adgroup declared in app/models/role_mapping.py;
any other SQLAlchemyError is injected via StoreFault.sqlError).  HTTP
round-trips are modelled by injecting their outcome (a status code, or a
transport error).  Exceptions carry (message, detail) as in
app/exceptions.py.  String literals elide the single quotes that the
Python messages put around interpolated values.
-/

/-! ## Data model (app/models/role_mapping.py) -/

structure RoleMapping where
  id : Nat
  application_id : String
  environment : String
  ad_group : String
  role : String
  deriving DecidableEq, Repr

structure Application where
  id : String
  name : String
  description : String
  deriving DecidableEq, Repr

/-- The columns of the unique constraint uq_app_env_adgroup. -/
def tripleKey (m : RoleMapping) : String × String × String :=
  (m.application_id, m.environment, m.ad_group)

/-! ## Exceptions (app/exceptions.py) -/

/-- The exception classes raised by the core, with their
(message, detail) payloads as in app/exceptions.py. -/
inductive AppErr where
  | opaConnectionError (message : String) (detail : String)
  | databaseError (message : String) (detail : String)
  | validationError (message : String) (detail : String)
  deriving DecidableEq, Repr

/-- The Python class of an exception value, forgetting its payload. -/
inductive ExcClass where
  | opaConnectionError
  | databaseError
  | validationError
  deriving DecidableEq, Repr

def AppErr.cls : AppErr → ExcClass
  | .opaConnectionError _ _ => .opaConnectionError
  | .databaseError _ _ => .databaseError
  | .validationError _ _ => .validationError

/-- The class of the exception carried by a failed result, if any. -/
def resultErrClass {α : Type} : Except AppErr α → Option ExcClass
  | .error e => some e.cls
  | .ok _ => none

def resultIsOk {α : Type} : Except AppErr α → Bool
  | .ok _ => true
  | .error _ => false

/-! ## Python dicts as insertion-ordered association lists -/

def dictLookup {β : Type} : List (String × β) → String → Option β
  | [], _ => none
  | p :: d, k => if p.1 = k then some p.2 else dictLookup d k

/-- Python dict assignment `d[k] = v`: replaces the value of an existing
key in place, otherwise appends the new key at the end (insertion order). -/
def dictSet {β : Type} : List (String × β) → String → β → List (String × β)
  | [], k, v => [(k, v)]
  | p :: d, k, v => if p.1 = k then (k, v) :: d else p :: dictSet d k v

/-- The nested OPA document: application_id -> environment -> ad_group -> role. -/
abbrev OpaDoc := List (String × List (String × List (String × String)))

/-! ## Repository (app/repositories/role_mapping_repository.py) -/

/-- One loop iteration of RoleMappingRepository.get_all_as_opa_data:
initialize the nested structure if needed, then set
`opa_data["role_mappings"][app_id][env][ad_group] = role`. -/
def addMapping (doc : OpaDoc) (m : RoleMapping) : OpaDoc :=
  let appDict := (dictLookup doc m.application_id).getD []
  let envDict := (dictLookup appDict m.environment).getD []
  dictSet doc m.application_id
    (dictSet appDict m.environment (dictSet envDict m.ad_group m.role))

/-- The inner document built by get_all_as_opa_data from the rows of the
store, in iteration order. -/
def projectMappings (ms : List RoleMapping) : OpaDoc :=
  ms.foldl addMapping []

/-- RoleMappingRepository.get_all_as_opa_data: the whole returned value,
wrapped under the "role_mappings" key exactly as in the source. -/
def get_all_as_opa_data (ms : List RoleMapping) : List (String × OpaDoc) :=
  [("role_mappings", projectMappings ms)]

/-- Lookup of document[a][e][g]. -/
def docLookup (doc : OpaDoc) (a e g : String) : Option String :=
  match dictLookup doc a with
  | none => none
  | some ed =>
    match dictLookup ed e with
    | none => none
    | some gd => dictLookup gd g

/-- Sum of f over the values of an association list. -/
def sumVals {β : Type} (f : β → Nat) (d : List (String × β)) : Nat :=
  (d.map (fun p => f p.2)).sum

/-- Number of leaf role values under one application entry. -/
def envLeaves (ed : List (String × List (String × String))) : Nat :=
  sumVals (fun gd => gd.length) ed

/-- Number of leaf role values in the nested document. -/
def leafCount (doc : OpaDoc) : Nat :=
  sumVals envLeaves doc

/-- An injected persistence failure: `ok` means the commit succeeds
unless the unique constraint is violated; `sqlError` is any other
SQLAlchemyError raised by the commit. -/
inductive StoreFault where
  | ok
  | sqlError (msg : String)
  deriving DecidableEq, Repr

/-- Whether a row with the same (application_id, environment, ad_group)
triple is already live, i.e. whether the insert violates
uq_app_env_adgroup. -/
def tripleExists (db : List RoleMapping) (m : RoleMapping) : Bool :=
  db.any (fun r => tripleKey r == tripleKey m)

/-- Result of a repository call: the raised-or-returned value, together
with the rows live after the call (errors roll the session back). -/
structure RepoResult (α : Type) where
  result : Except AppErr α
  db : List RoleMapping
  deriving Repr

/-- The conflict message of RoleMappingRepository.create (quotes elided). -/
def conflictMessage (m : RoleMapping) : String :=
  "Role mapping already exists for application " ++ m.application_id ++
  ", environment " ++ m.environment ++ ", and AD group " ++ m.ad_group

/-- RoleMappingRepository.create: add + commit; IntegrityError when the
triple exists, any other SQLAlchemyError when one is injected; both
error paths roll back, leaving the rows unchanged. -/
def RoleMappingRepository.create (fault : StoreFault) (db : List RoleMapping)
    (m : RoleMapping) : RepoResult RoleMapping :=
  match fault with
  | .sqlError e => ⟨.error (.databaseError "Failed to create role mapping" e), db⟩
  | .ok =>
    if tripleExists db m then
      ⟨.error (.databaseError (conflictMessage m) "IntegrityError"), db⟩
    else
      ⟨.ok m, db ++ [m]⟩

/-- RoleMappingRepository.get_by_id: first row with the given id. -/
def RoleMappingRepository.get_by_id (db : List RoleMapping) (mapping_id : Nat) :
    Option RoleMapping :=
  db.find? (fun r => r.id == mapping_id)

/-- RoleMappingRepository.update: commit the in-place mutation `rm` of an
already-loaded row; IntegrityError when the mutated triple collides with
a different live row; both error paths roll back (also reverting the
in-memory mutation), leaving the rows unchanged. -/
def RoleMappingRepository.update (fault : StoreFault) (db : List RoleMapping)
    (rm : RoleMapping) : RepoResult RoleMapping :=
  match fault with
  | .sqlError e =>
    ⟨.error (.databaseError ("Failed to update role mapping " ++ toString rm.id) e), db⟩
  | .ok =>
    if db.any (fun r => r.id != rm.id && tripleKey r == tripleKey rm) then
      ⟨.error (.databaseError "Role mapping conflict: combination already exists"
          "IntegrityError"), db⟩
    else
      ⟨.ok rm, db.map (fun r => if r.id == rm.id then rm else r)⟩

/-- RoleMappingRepository.delete: returns false when no row has the id
(before any write); otherwise removes the row, with an injected
SQLAlchemyError rolling back. -/
def RoleMappingRepository.delete (fault : StoreFault) (db : List RoleMapping)
    (mapping_id : Nat) : RepoResult Bool :=
  match RoleMappingRepository.get_by_id db mapping_id with
  | none => ⟨.ok false, db⟩
  | some _ =>
    match fault with
    | .sqlError e =>
      ⟨.error (.databaseError ("Failed to delete role mapping " ++ toString mapping_id) e), db⟩
    | .ok => ⟨.ok true, db.filter (fun r => r.id != mapping_id)⟩

/-! ## OPA engine client (app/services/opa_service.py) -/

/-- The outcome of one HTTP round-trip: a response with a status code, or
an httpx.RequestError (transport failure, timeouts included). -/
inductive HttpOutcome where
  | response (status : Nat)
  | transportError (msg : String)
  deriving DecidableEq, Repr

/-- OPAService.push_policy_data: PUT to /v1/data/data_path; 200 and 204
succeed, any other status or a transport error raises OPAConnectionError. -/
def OPAService.push_policy_data (outcome : HttpOutcome) (data_path : String)
    (data : OpaDoc) : Except AppErr Bool :=
  match outcome with
  | .response status =>
    if status = 200 ∨ status = 204 then .ok true
    else
      .error (.opaConnectionError ("Failed to push data to OPA path " ++ data_path)
        ("Status " ++ toString status))
  | .transportError e =>
    .error (.opaConnectionError "Failed to connect to OPA for data push" e)

/-- Whether a push with this round-trip outcome raises. -/
def pushFails : HttpOutcome → Bool
  | .response status => !(status == 200 || status == 204)
  | .transportError _ => true

def max_retries : Nat := 3

def base_delay : Nat := 1

instance {ε α : Type} [DecidableEq ε] [DecidableEq α] : DecidableEq (Except ε α) := fun x y =>
  match x, y with
  | .ok a, .ok b =>
    if h : a = b then isTrue (congrArg Except.ok h)
    else isFalse (fun hh => h (Except.ok.inj hh))
  | .error a, .error b =>
    if h : a = b then isTrue (congrArg Except.error h)
    else isFalse (fun hh => h (Except.error.inj hh))
  | .ok _, .error _ => isFalse (fun hh => Except.noConfusion hh)
  | .error _, .ok _ => isFalse (fun hh => Except.noConfusion hh)

/-- What OPAService.health_check produced: the returned-or-raised value,
the number of GET round-trips issued, and the backoff sleeps performed,
in order. -/
structure HealthResult where
  result : Except AppErr Bool
  attempts : Nat
  sleeps : List Nat
  deriving DecidableEq, Repr

/-- The body of the `for attempt in range(max_retries)` loop of
OPAService.health_check, iterating over the remaining attempt indices,
with `probe attempt` the outcome of the GET issued on that iteration.
A 200 returns True; any other status logs and falls through to the next
iteration with no sleep; a transport error sleeps base_delay * 2 ^ attempt
and retries, except on the last attempt where it raises; falling off the
loop returns False. -/
def health_check_go (probe : Nat → HttpOutcome) :
    List Nat → Nat → List Nat → HealthResult
  | [], made, sleeps => ⟨.ok false, made, sleeps⟩
  | attempt :: rest, made, sleeps =>
    match probe attempt with
    | .response status =>
      if status = 200 then ⟨.ok true, made + 1, sleeps⟩
      else health_check_go probe rest (made + 1) sleeps
    | .transportError msg =>
      if attempt < max_retries - 1 then
        health_check_go probe rest (made + 1)
          (sleeps ++ [base_delay * 2 ^ attempt])
      else
        ⟨.error (.opaConnectionError "OPA server is unreachable"
            ("Failed after " ++ toString max_retries ++ " attempts: " ++ msg)),
          made + 1, sleeps⟩

/-- OPAService.health_check. -/
def OPAService.health_check (probe : Nat → HttpOutcome) : HealthResult :=
  health_check_go probe (List.range max_retries) 0 []

/-! ## Service (app/services/role_mapping_service.py) -/

/-- The injected environment of one service operation: whether the store
commit fails, and how the engine answers the data-push PUT. -/
structure Faults where
  storeFault : StoreFault
  pushOutcome : HttpOutcome
  deriving DecidableEq, Repr

/-- Result of a service operation: the raised-or-returned value, the rows
live after the operation, and the push_policy_data calls performed
(path and full document), in order. -/
structure OpResult (α : Type) where
  result : Except AppErr α
  db : List RoleMapping
  pushes : List (String × OpaDoc)
  deriving Repr

/-- RoleMappingService.sync_to_opa: project the whole store, then push
opa_data["role_mappings"] to the fixed path "role_mappings".  Returns the
push result and the recorded push. -/
def RoleMappingService.sync_to_opa (outcome : HttpOutcome) (db : List RoleMapping) :
    Except AppErr Bool × List (String × OpaDoc) :=
  let opa_data := get_all_as_opa_data db
  let inner := (dictLookup opa_data "role_mappings").getD []
  (OPAService.push_policy_data outcome "role_mappings" inner,
   [("role_mappings", inner)])

/-- The RoleMappingCreate schema (app/schemas/role_mapping.py). -/
structure RoleMappingCreate where
  application_id : String
  environment : String
  ad_group : String
  role : String
  deriving DecidableEq, Repr

/-- The RoleMappingUpdate schema: all fields optional. -/
structure RoleMappingUpdate where
  environment : Option String
  ad_group : Option String
  role : Option String
  deriving DecidableEq, Repr

/-- The autoincrement primary key: modelled as one more than the largest
live id, which is fresh for any store. -/
def nextId (db : List RoleMapping) : Nat :=
  db.foldl (fun acc r => max acc r.id) 0 + 1

/-- The RoleMapping row built by RoleMappingService.create_role_mapping
from the request payload, with its store-assigned id. -/
def newMappingOf (db : List RoleMapping) (data : RoleMappingCreate) : RoleMapping :=
  { id := nextId db
    application_id := data.application_id
    environment := data.environment
    ad_group := data.ad_group
    role := data.role }

/-- RoleMappingService.create_role_mapping: repository create, then
sync_to_opa; a store failure re-raises with no push, a sync failure
re-raises after the push attempt, without rolling the store back. -/
def RoleMappingService.create_role_mapping (f : Faults) (db : List RoleMapping)
    (data : RoleMappingCreate) : OpResult RoleMapping :=
  let res := RoleMappingRepository.create f.storeFault db (newMappingOf db data)
  match res.result with
  | .error e => ⟨.error e, res.db, []⟩
  | .ok created =>
    match RoleMappingService.sync_to_opa f.pushOutcome res.db with
    | (.ok _, pushes) => ⟨.ok created, res.db, pushes⟩
    | (.error e, pushes) => ⟨.error e, res.db, pushes⟩

/-- The field-by-field partial update applied by
RoleMappingService.update_role_mapping: unset fields retain their value. -/
def applyUpdate (rm : RoleMapping) (u : RoleMappingUpdate) : RoleMapping :=
  { rm with
    environment := u.environment.getD rm.environment
    ad_group := u.ad_group.getD rm.ad_group
    role := u.role.getD rm.role }

/-- RoleMappingService.update_role_mapping: ValidationError when the id is
unknown; otherwise apply the partial update, repository update, then
sync_to_opa, with the same error policy as create. -/
def RoleMappingService.update_role_mapping (f : Faults) (db : List RoleMapping)
    (mapping_id : Nat) (data : RoleMappingUpdate) : OpResult RoleMapping :=
  match RoleMappingRepository.get_by_id db mapping_id with
  | none =>
    ⟨.error (.validationError ("Role mapping with id " ++ toString mapping_id ++ " not found")
        "Cannot update non-existent role mapping"), db, []⟩
  | some rm =>
    let res := RoleMappingRepository.update f.storeFault db (applyUpdate rm data)
    match res.result with
    | .error e => ⟨.error e, res.db, []⟩
    | .ok updated =>
      match RoleMappingService.sync_to_opa f.pushOutcome res.db with
      | (.ok _, pushes) => ⟨.ok updated, res.db, pushes⟩
      | (.error e, pushes) => ⟨.error e, res.db, pushes⟩

/-- RoleMappingService.delete_role_mapping: repository delete; sync only
when a row was actually deleted; returns the repository boolean. -/
def RoleMappingService.delete_role_mapping (f : Faults) (db : List RoleMapping)
    (mapping_id : Nat) : OpResult Bool :=
  let res := RoleMappingRepository.delete f.storeFault db mapping_id
  match res.result with
  | .error e => ⟨.error e, res.db, []⟩
  | .ok false => ⟨.ok false, res.db, []⟩
  | .ok true =>
    match RoleMappingService.sync_to_opa f.pushOutcome res.db with
    | (.ok _, pushes) => ⟨.ok true, res.db, pushes⟩
    | (.error e, pushes) => ⟨.error e, res.db, pushes⟩

/-! ## Permission evaluation (app/routers/permissions.py) -/

structure AppPermissionResponse where
  application_id : String
  role : String
  deriving DecidableEq, Repr

/-- The HTTPExceptions the endpoint can raise. -/
inductive HttpFailure where
  | notFound (detail : String)
  | serviceUnavailable (detail : String)
  | internalError (detail : String)
  deriving DecidableEq, Repr

/-- evaluate_app_permission, from the application lookup on: 404 when the
application is unknown; engine errors translated to 503/500; otherwise
the role is permissions.get(app_id, "none"). -/
def evaluate_app_permission (app_id : String) (application : Option Application)
    (engine : Except AppErr (List (String × String))) :
    Except HttpFailure AppPermissionResponse :=
  match application with
  | none => .error (.notFound ("Application with id " ++ app_id ++ " not found"))
  | some _ =>
    match engine with
    | .error (.opaConnectionError msg _) =>
      .error (.serviceUnavailable ("OPA server is unreachable: " ++ msg))
    | .error (.databaseError msg _) =>
      .error (.internalError ("Database operation failed: " ++ msg))
    | .error (.validationError _ _) =>
      .error (.internalError "An unexpected error occurred while evaluating permission")
    | .ok permissions =>
      .ok ⟨app_id, (dictLookup permissions app_id).getD "none"⟩

/-! ## Association-list lemmas -/

theorem dictLookup_dictSet_self {β : Type} (d : List (String × β)) (k : String) (v : β) :
    dictLookup (dictSet d k v) k = some v := by
  induction d with
  | nil => simp [dictSet, dictLookup]
  | cons p d ih =>
    by_cases h : p.1 = k
    · simp [dictSet, h, dictLookup]
    · simp [dictSet, h, dictLookup, ih]

theorem dictLookup_dictSet_ne {β : Type} (d : List (String × β)) (k k' : String) (v : β)
    (h : k' ≠ k) : dictLookup (dictSet d k v) k' = dictLookup d k' := by
  induction d with
  | nil => simp [dictSet, dictLookup, Ne.symm h]
  | cons p d ih =>
    by_cases hp : p.1 = k
    · simp [dictSet, hp, dictLookup, Ne.symm h]
    · simp [dictSet, hp, dictLookup, ih]

theorem sumVals_cons {β : Type} (f : β → Nat) (p : String × β) (d : List (String × β)) :
    sumVals f (p :: d) = f p.2 + sumVals f d := by
  simp [sumVals]

theorem sumVals_dictSet_none {β : Type} (f : β → Nat) (d : List (String × β))
    (k : String) (v : β) (h : dictLookup d k = none) :
    sumVals f (dictSet d k v) = sumVals f d + f v := by
  induction d with
  | nil => simp [dictSet, sumVals]
  | cons p d ih =>
    by_cases hp : p.1 = k
    · simp [dictLookup, hp] at h
    · simp only [dictLookup, hp, if_false, ite_false] at h
      rw [show dictSet (p :: d) k v = p :: dictSet d k v from by simp [dictSet, hp]]
      rw [sumVals_cons, sumVals_cons, ih h]
      omega

theorem sumVals_dictSet_some {β : Type} (f : β → Nat) (d : List (String × β))
    (k : String) (v w : β) (h : dictLookup d k = some w) :
    sumVals f (dictSet d k v) + f w = sumVals f d + f v := by
  induction d with
  | nil => simp [dictLookup] at h
  | cons p d ih =>
    by_cases hp : p.1 = k
    · simp only [dictLookup, hp, if_true, ite_true, Option.some.injEq] at h
      rw [show dictSet (p :: d) k v = (k, v) :: d from by simp [dictSet, hp]]
      rw [sumVals_cons, sumVals_cons, h]
      show f v + sumVals f d + f w = f w + sumVals f d + f v
      omega
    · simp only [dictLookup, hp, if_false, ite_false] at h
      rw [show dictSet (p :: d) k v = p :: dictSet d k v from by simp [dictSet, hp]]
      rw [sumVals_cons, sumVals_cons]
      have := ih h
      omega

theorem length_dictSet_none {β : Type} (d : List (String × β)) (k : String) (v : β)
    (h : dictLookup d k = none) : (dictSet d k v).length = d.length + 1 := by
  induction d with
  | nil => simp [dictSet]
  | cons p d ih =>
    by_cases hp : p.1 = k
    · simp [dictLookup, hp] at h
    · simp only [dictLookup, hp, if_false, ite_false] at h
      simp [dictSet, hp, ih h]

/-! ## sync_to_opa pushes -/

theorem sync_to_opa_pushes (o : HttpOutcome) (db : List RoleMapping) :
    (RoleMappingService.sync_to_opa o db).2 = [("role_mappings", projectMappings db)] := by
  simp [RoleMappingService.sync_to_opa, get_all_as_opa_data, dictLookup]

/-- C7: sync_to_opa is idempotent: for a fixed store, each call pushes the
complete projected document (never a diff) to the fixed path
"role_mappings", so two calls with no intervening mutation push two
identical documents. -/
theorem c7_idempotent_resync (o1 o2 : HttpOutcome) (db : List RoleMapping) :
    (RoleMappingService.sync_to_opa o1 db).2 = [("role_mappings", projectMappings db)] ∧
    (RoleMappingService.sync_to_opa o1 db).2 = (RoleMappingService.sync_to_opa o2 db).2 := by
  rw [sync_to_opa_pushes, sync_to_opa_pushes]
  exact ⟨rfl, rfl⟩

/-- C9: when the decision payload has no entry for the queried application
id, evaluate_app_permission returns role "none" rather than an error. -/
theorem c9_evaluation_default_none (app_id : String) (a : Application)
    (perms : List (String × String)) (h : dictLookup perms app_id = none) :
    evaluate_app_permission app_id (some a) (.ok perms) = .ok ⟨app_id, "none"⟩ := by
  simp [evaluate_app_permission, h]

theorem c9_evaluation_default_none_witness :
    dictLookup [("app-a", "admin")] "app-z" = none ∧
    evaluate_app_permission "app-z" (some ⟨"app-z", "App Z", "desc"⟩)
      (.ok [("app-a", "admin")]) = .ok ⟨"app-z", "none"⟩ :=
  ⟨by decide, c9_evaluation_default_none "app-z" ⟨"app-z", "App Z", "desc"⟩ _ (by decide)⟩

/-- C10: deleting an id that is not in the store returns False, performs
zero pushes to the engine, and leaves the store unchanged. -/
theorem c10_delete_missing_no_push (f : Faults) (db : List RoleMapping) (mid : Nat)
    (h : RoleMappingRepository.get_by_id db mid = none) :
    (RoleMappingService.delete_role_mapping f db mid).result = .ok false ∧
    (RoleMappingService.delete_role_mapping f db mid).db = db ∧
    (RoleMappingService.delete_role_mapping f db mid).pushes = [] := by
  simp [RoleMappingService.delete_role_mapping, RoleMappingRepository.delete, h]

theorem c10_delete_missing_no_push_witness :
    RoleMappingRepository.get_by_id [⟨1, "app-a", "DEV", "grp", "admin"⟩] 99 = none ∧
    ((RoleMappingService.delete_role_mapping ⟨.ok, .response 200⟩
        [⟨1, "app-a", "DEV", "grp", "admin"⟩] 99).result = .ok false ∧
      (RoleMappingService.delete_role_mapping ⟨.ok, .response 200⟩
        [⟨1, "app-a", "DEV", "grp", "admin"⟩] 99).db = [⟨1, "app-a", "DEV", "grp", "admin"⟩] ∧
      (RoleMappingService.delete_role_mapping ⟨.ok, .response 200⟩
        [⟨1, "app-a", "DEV", "grp", "admin"⟩] 99).pushes = []) :=
  ⟨by decide, c10_delete_missing_no_push ⟨.ok, .response 200⟩ _ 99 (by decide)⟩

/-! ## Health check (C4, C5) -/

/-- C4 counterexample: with a first round-trip returning status 500 (no
transport error) and a second returning 200, health_check does not return
a not-healthy result directly after the non-200: it issues a second GET
(consuming an attempt, with no backoff sleep) and returns healthy.  This
refutes the claim that a non-200 status returns not-healthy directly
without consuming a retry attempt. -/
theorem c4_counterexample :
    (OPAService.health_check
      (fun i => if i == 0 then HttpOutcome.response 500 else .response 200)).result
        = .ok true ∧
    (OPAService.health_check
      (fun i => if i == 0 then HttpOutcome.response 500 else .response 200)).attempts = 2 ∧
    (OPAService.health_check
      (fun i => if i == 0 then HttpOutcome.response 500 else .response 200)).sleeps = [] ∧
    ¬ ((OPAService.health_check
        (fun i => if i == 0 then HttpOutcome.response 500 else .response 200)).result
          = .ok false ∧
      (OPAService.health_check
        (fun i => if i == 0 then HttpOutcome.response 500 else .response 200)).attempts = 1) := by
  decide

/-- C4 (amended): when a round-trip completes without a transport error
but with a non-200 status, no backoff delay is applied, but the attempt
does consume one of the 3 loop attempts and the probe is retried
immediately; only after all 3 attempts return non-200 does health_check
return a not-healthy result (False).  Only transport errors trigger the
backoff sleeps. -/
theorem c4_non200_consumes_attempt_no_backoff (probe : Nat → HttpOutcome)
    (s0 s1 s2 : Nat)
    (h0 : probe 0 = .response s0) (h1 : probe 1 = .response s1)
    (h2 : probe 2 = .response s2)
    (n0 : s0 ≠ 200) (n1 : s1 ≠ 200) (n2 : s2 ≠ 200) :
    OPAService.health_check probe = ⟨.ok false, 3, []⟩ := by
  have hr : List.range max_retries = [0, 1, 2] := by decide
  unfold OPAService.health_check
  rw [hr]
  simp [health_check_go, h0, h1, h2, n0, n1, n2]

theorem c4_non200_consumes_attempt_no_backoff_witness :
    OPAService.health_check (fun _ => .response 503) = ⟨.ok false, 3, []⟩ :=
  c4_non200_consumes_attempt_no_backoff (fun _ => .response 503) 503 503 503
    rfl rfl rfl (by decide) (by decide) (by decide)

/-- C5: when every round-trip fails with a transport error, health_check
performs exactly 3 attempts, sleeps 1 second before the 2nd attempt and 2
seconds before the 3rd (none after the last), then raises
OPAConnectionError carrying the last underlying transport error. -/
theorem c5_health_check_backoff (probe : Nat → HttpOutcome) (m0 m1 m2 : String)
    (h0 : probe 0 = .transportError m0) (h1 : probe 1 = .transportError m1)
    (h2 : probe 2 = .transportError m2) :
    OPAService.health_check probe =
      ⟨.error (.opaConnectionError "OPA server is unreachable"
          ("Failed after " ++ toString max_retries ++ " attempts: " ++ m2)),
        3, [1, 2]⟩ := by
  have hr : List.range max_retries = [0, 1, 2] := by decide
  unfold OPAService.health_check
  rw [hr]
  norm_num [health_check_go, h0, h1, h2, max_retries, base_delay]

theorem c5_health_check_backoff_witness :
    OPAService.health_check (fun _ => .transportError "Connection refused") =
      ⟨.error (.opaConnectionError "OPA server is unreachable"
          ("Failed after " ++ toString max_retries ++ " attempts: " ++ "Connection refused")),
        3, [1, 2]⟩ :=
  c5_health_check_backoff (fun _ => .transportError "Connection refused")
    "Connection refused" "Connection refused" "Connection refused" rfl rfl rfl

/-! ## Projection lemmas (C3) -/

theorem docLookup_addMapping_self (doc : OpaDoc) (m : RoleMapping) :
    docLookup (addMapping doc m) m.application_id m.environment m.ad_group = some m.role := by
  simp [addMapping, docLookup, dictLookup_dictSet_self]

theorem docLookup_addMapping_ne (doc : OpaDoc) (m : RoleMapping) (a e g : String)
    (h : (a, e, g) ≠ tripleKey m) :
    docLookup (addMapping doc m) a e g = docLookup doc a e g := by
  by_cases ha : a = m.application_id
  · subst ha
    by_cases he : e = m.environment
    · subst he
      have hg : g ≠ m.ad_group := by
        intro hg
        exact h (by simp [tripleKey, hg])
      simp only [addMapping, docLookup, dictLookup_dictSet_self]
      rw [dictLookup_dictSet_ne _ _ _ _ hg]
      cases hd : dictLookup doc m.application_id with
      | none => simp [dictLookup]
      | some ad =>
        simp only [Option.getD]
        cases hde : dictLookup ad m.environment with
        | none => simp [dictLookup]
        | some gd => simp
    · simp only [addMapping, docLookup, dictLookup_dictSet_self]
      rw [dictLookup_dictSet_ne _ _ _ _ he]
      cases hd : dictLookup doc m.application_id with
      | none => simp [dictLookup]
      | some ad => simp
  · simp only [addMapping, docLookup]
    rw [dictLookup_dictSet_ne _ _ _ _ ha]

theorem leafCount_addMapping (doc : OpaDoc) (m : RoleMapping)
    (h : docLookup doc m.application_id m.environment m.ad_group = none) :
    leafCount (addMapping doc m) = leafCount doc + 1 := by
  unfold docLookup at h
  unfold leafCount addMapping
  cases hd : dictLookup doc m.application_id with
  | none =>
    simp only [Option.getD_none, dictLookup]
    rw [sumVals_dictSet_none envLeaves doc m.application_id _ hd]
    have e2 : envLeaves (dictSet ([] : List (String × List (String × String)))
        m.environment (dictSet ([] : List (String × String)) m.ad_group m.role)) = 1 := rfl
    omega
  | some ad =>
    simp only [hd] at h
    simp only [Option.getD_some]
    cases hde : dictLookup ad m.environment with
    | none =>
      simp only [Option.getD_none]
      have e1 : sumVals envLeaves (dictSet doc m.application_id
            (dictSet ad m.environment (dictSet ([] : List (String × String))
              m.ad_group m.role))) + envLeaves ad
          = sumVals envLeaves doc +
            envLeaves (dictSet ad m.environment (dictSet ([] : List (String × String))
              m.ad_group m.role)) :=
        sumVals_dictSet_some envLeaves doc m.application_id _ ad hd
      have e2 : sumVals (fun gd => gd.length) (dictSet ad m.environment
            (dictSet ([] : List (String × String)) m.ad_group m.role))
          = sumVals (fun gd => gd.length) ad +
            (dictSet ([] : List (String × String)) m.ad_group m.role).length :=
        sumVals_dictSet_none (fun gd => gd.length) ad m.environment _ hde
      have e3 : (dictSet ([] : List (String × String)) m.ad_group m.role).length = 1 := rfl
      simp only [envLeaves] at e1 ⊢
      omega
    | some gd =>
      simp only [hde] at h
      simp only [Option.getD_some]
      have e1 : sumVals envLeaves (dictSet doc m.application_id
            (dictSet ad m.environment (dictSet gd m.ad_group m.role))) + envLeaves ad
          = sumVals envLeaves doc +
            envLeaves (dictSet ad m.environment (dictSet gd m.ad_group m.role)) :=
        sumVals_dictSet_some envLeaves doc m.application_id _ ad hd
      have e2 : sumVals (fun x => x.length) (dictSet ad m.environment
            (dictSet gd m.ad_group m.role)) + gd.length
          = sumVals (fun x => x.length) ad + (dictSet gd m.ad_group m.role).length :=
        sumVals_dictSet_some (fun x => x.length) ad m.environment _ gd hde
      have e3 : (dictSet gd m.ad_group m.role).length = gd.length + 1 :=
        length_dictSet_none gd m.ad_group m.role h
      simp only [envLeaves] at e1 ⊢
      omega

theorem docLookup_foldl_ne (ms : List RoleMapping) (doc : OpaDoc) (a e g : String)
    (h : ∀ m ∈ ms, (a, e, g) ≠ tripleKey m) :
    docLookup (ms.foldl addMapping doc) a e g = docLookup doc a e g := by
  induction ms generalizing doc with
  | nil => rfl
  | cons m ms ih =>
    rw [List.foldl_cons, ih _ (fun m' hm' => h m' (List.mem_cons_of_mem _ hm')),
      docLookup_addMapping_ne doc m a e g (h m (List.mem_cons_self _ _))]

theorem docLookup_foldl_mem (ms : List RoleMapping) (doc : OpaDoc)
    (hdist : ms.Pairwise (fun x y => tripleKey x ≠ tripleKey y)) :
    ∀ m ∈ ms,
      docLookup (ms.foldl addMapping doc) m.application_id m.environment m.ad_group
        = some m.role := by
  induction ms generalizing doc with
  | nil => intro m hm; cases hm
  | cons m0 ms ih =>
    intro m hm
    rw [List.foldl_cons]
    rcases List.mem_cons.mp hm with rfl | hm'
    · rw [docLookup_foldl_ne ms (addMapping doc m) m.application_id m.environment m.ad_group
        (fun m' hm' => (List.pairwise_cons.mp hdist).1 m' hm')]
      exact docLookup_addMapping_self doc m
    · exact ih (addMapping doc m0) (List.pairwise_cons.mp hdist).2 m hm'

theorem leafCount_foldl (ms : List RoleMapping) (doc : OpaDoc)
    (hdist : ms.Pairwise (fun x y => tripleKey x ≠ tripleKey y))
    (hfresh : ∀ m ∈ ms, docLookup doc m.application_id m.environment m.ad_group = none) :
    leafCount (ms.foldl addMapping doc) = leafCount doc + ms.length := by
  induction ms generalizing doc with
  | nil => simp
  | cons m0 ms ih =>
    have hd := List.pairwise_cons.mp hdist
    rw [List.foldl_cons,
      ih (addMapping doc m0) hd.2 (fun m hm => by
        rw [docLookup_addMapping_ne doc m0 _ _ _
          (fun hc => (hd.1 m hm) (hc ▸ rfl)),
          hfresh m (List.mem_cons_of_mem _ hm)]),
      leafCount_addMapping doc m0 (hfresh m0 (List.mem_cons_self _ _))]
    simp
    omega

/-- C3: for a collection of mapping rows whose (application_id,
environment, ad_group) triples are pairwise distinct, the projection
produces a nested document with exactly N leaf role values, and each
input tuple (a, e, g, r) is reachable at document[a][e][g] = r. -/
theorem c3_projection_correctness (ms : List RoleMapping)
    (hdist : ms.Pairwise (fun x y => tripleKey x ≠ tripleKey y)) :
    leafCount (projectMappings ms) = ms.length ∧
    ∀ m ∈ ms,
      docLookup (projectMappings ms) m.application_id m.environment m.ad_group
        = some m.role := by
  constructor
  · have h := leafCount_foldl ms [] hdist (fun m _ => rfl)
    simpa [projectMappings, leafCount, sumVals] using h
  · exact docLookup_foldl_mem ms [] hdist

theorem c3_projection_correctness_witness :
    ([⟨1, "app-a", "DEV", "grp-admin", "admin"⟩,
      ⟨2, "app-a", "PROD", "grp-user", "user"⟩,
      ⟨3, "app-b", "DEV", "grp-admin", "admin"⟩] : List RoleMapping).Pairwise
        (fun x y => tripleKey x ≠ tripleKey y) ∧
    (leafCount (projectMappings
        [⟨1, "app-a", "DEV", "grp-admin", "admin"⟩,
         ⟨2, "app-a", "PROD", "grp-user", "user"⟩,
         ⟨3, "app-b", "DEV", "grp-admin", "admin"⟩]) =
      ([⟨1, "app-a", "DEV", "grp-admin", "admin"⟩,
        ⟨2, "app-a", "PROD", "grp-user", "user"⟩,
        ⟨3, "app-b", "DEV", "grp-admin", "admin"⟩] : List RoleMapping).length ∧
      ∀ m ∈ ([⟨1, "app-a", "DEV", "grp-admin", "admin"⟩,
              ⟨2, "app-a", "PROD", "grp-user", "user"⟩,
              ⟨3, "app-b", "DEV", "grp-admin", "admin"⟩] : List RoleMapping),
        docLookup (projectMappings
          [⟨1, "app-a", "DEV", "grp-admin", "admin"⟩,
           ⟨2, "app-a", "PROD", "grp-user", "user"⟩,
           ⟨3, "app-b", "DEV", "grp-admin", "admin"⟩])
          m.application_id m.environment m.ad_group = some m.role) :=
  ⟨by decide, c3_projection_correctness _ (by decide)⟩

/-! ## Service-structure lemmas -/

theorem push_policy_data_ok (o : HttpOutcome) (path : String) (d : OpaDoc)
    (h : pushFails o = false) : OPAService.push_policy_data o path d = .ok true := by
  cases o with
  | transportError e => simp [pushFails] at h
  | response s =>
    simp only [pushFails, Bool.not_eq_false', Bool.or_eq_true, beq_iff_eq] at h
    simp [OPAService.push_policy_data, h]

theorem push_policy_data_fail_class (o : HttpOutcome) (path : String) (d : OpaDoc)
    (h : pushFails o = true) :
    resultErrClass (OPAService.push_policy_data o path d) = some .opaConnectionError := by
  cases o with
  | transportError e => rfl
  | response s =>
    simp only [pushFails, Bool.not_eq_true', Bool.or_eq_false_iff, beq_eq_false_iff_ne] at h
    unfold OPAService.push_policy_data
    dsimp only
    rw [if_neg (by tauto)]
    rfl

theorem create_role_mapping_db (f : Faults) (db : List RoleMapping)
    (data : RoleMappingCreate) :
    (RoleMappingService.create_role_mapping f db data).db =
      (RoleMappingRepository.create f.storeFault db (newMappingOf db data)).db := by
  simp only [RoleMappingService.create_role_mapping]
  cases hres : (RoleMappingRepository.create f.storeFault db (newMappingOf db data)).result with
  | error e => rfl
  | ok created =>
    dsimp only
    rcases hs : RoleMappingService.sync_to_opa f.pushOutcome
      (RoleMappingRepository.create f.storeFault db (newMappingOf db data)).db with ⟨sr, pushes⟩
    cases sr <;> rfl

theorem create_role_mapping_pushes (f : Faults) (db : List RoleMapping)
    (data : RoleMappingCreate) :
    (RoleMappingService.create_role_mapping f db data).pushes =
      match (RoleMappingRepository.create f.storeFault db (newMappingOf db data)).result with
      | .ok _ => [("role_mappings", projectMappings
          (RoleMappingRepository.create f.storeFault db (newMappingOf db data)).db)]
      | .error _ => [] := by
  simp only [RoleMappingService.create_role_mapping]
  cases hres : (RoleMappingRepository.create f.storeFault db (newMappingOf db data)).result with
  | error e => rfl
  | ok created =>
    dsimp only
    have hp := sync_to_opa_pushes f.pushOutcome
      (RoleMappingRepository.create f.storeFault db (newMappingOf db data)).db
    rcases hs : RoleMappingService.sync_to_opa f.pushOutcome
      (RoleMappingRepository.create f.storeFault db (newMappingOf db data)).db with ⟨sr, pushes⟩
    rw [hs] at hp
    cases sr <;> exact hp

theorem update_role_mapping_db (f : Faults) (db : List RoleMapping) (mid : Nat)
    (u : RoleMappingUpdate) (rm : RoleMapping)
    (hfind : RoleMappingRepository.get_by_id db mid = some rm) :
    (RoleMappingService.update_role_mapping f db mid u).db =
      (RoleMappingRepository.update f.storeFault db (applyUpdate rm u)).db := by
  simp only [RoleMappingService.update_role_mapping, hfind]
  cases hres : (RoleMappingRepository.update f.storeFault db (applyUpdate rm u)).result with
  | error e => rfl
  | ok updated =>
    dsimp only
    rcases hs : RoleMappingService.sync_to_opa f.pushOutcome
      (RoleMappingRepository.update f.storeFault db (applyUpdate rm u)).db with ⟨sr, pushes⟩
    cases sr <;> rfl

theorem update_role_mapping_pushes (f : Faults) (db : List RoleMapping) (mid : Nat)
    (u : RoleMappingUpdate) (rm : RoleMapping)
    (hfind : RoleMappingRepository.get_by_id db mid = some rm) :
    (RoleMappingService.update_role_mapping f db mid u).pushes =
      match (RoleMappingRepository.update f.storeFault db (applyUpdate rm u)).result with
      | .ok _ => [("role_mappings", projectMappings
          (RoleMappingRepository.update f.storeFault db (applyUpdate rm u)).db)]
      | .error _ => [] := by
  simp only [RoleMappingService.update_role_mapping, hfind]
  cases hres : (RoleMappingRepository.update f.storeFault db (applyUpdate rm u)).result with
  | error e => rfl
  | ok updated =>
    dsimp only
    have hp := sync_to_opa_pushes f.pushOutcome
      (RoleMappingRepository.update f.storeFault db (applyUpdate rm u)).db
    rcases hs : RoleMappingService.sync_to_opa f.pushOutcome
      (RoleMappingRepository.update f.storeFault db (applyUpdate rm u)).db with ⟨sr, pushes⟩
    rw [hs] at hp
    cases sr <;> exact hp

theorem delete_role_mapping_db (f : Faults) (db : List RoleMapping) (mid : Nat) :
    (RoleMappingService.delete_role_mapping f db mid).db =
      (RoleMappingRepository.delete f.storeFault db mid).db := by
  simp only [RoleMappingService.delete_role_mapping]
  cases hres : (RoleMappingRepository.delete f.storeFault db mid).result with
  | error e => rfl
  | ok b =>
    cases b with
    | false => rfl
    | true =>
      dsimp only
      rcases hs : RoleMappingService.sync_to_opa f.pushOutcome
        (RoleMappingRepository.delete f.storeFault db mid).db with ⟨sr, pushes⟩
      cases sr <;> rfl

theorem delete_role_mapping_pushes (f : Faults) (db : List RoleMapping) (mid : Nat) :
    (RoleMappingService.delete_role_mapping f db mid).pushes =
      match (RoleMappingRepository.delete f.storeFault db mid).result with
      | .ok true => [("role_mappings", projectMappings
          (RoleMappingRepository.delete f.storeFault db mid).db)]
      | _ => [] := by
  simp only [RoleMappingService.delete_role_mapping]
  cases hres : (RoleMappingRepository.delete f.storeFault db mid).result with
  | error e => rfl
  | ok b =>
    cases b with
    | false => rfl
    | true =>
      dsimp only
      have hp := sync_to_opa_pushes f.pushOutcome
        (RoleMappingRepository.delete f.storeFault db mid).db
      rcases hs : RoleMappingService.sync_to_opa f.pushOutcome
        (RoleMappingRepository.delete f.storeFault db mid).db with ⟨sr, pushes⟩
      rw [hs] at hp
      cases sr <;> exact hp

/-- C1: for each mutating operation, a successful store write is followed
by exactly one push of the full projected document of the resulting store
to the engine (one push_policy_data call, performed even when the push
itself then fails); a failed store write (or an update of an unknown id,
or a delete that found no row to err on) performs zero pushes. -/
theorem c1_sync_after_mutation :
    (∀ (f : Faults) (db : List RoleMapping) (data : RoleMappingCreate),
      resultIsOk (RoleMappingRepository.create f.storeFault db (newMappingOf db data)).result
          = true →
      (RoleMappingService.create_role_mapping f db data).pushes =
        [("role_mappings",
          projectMappings (RoleMappingService.create_role_mapping f db data).db)]) ∧
    (∀ (f : Faults) (db : List RoleMapping) (data : RoleMappingCreate),
      resultIsOk (RoleMappingRepository.create f.storeFault db (newMappingOf db data)).result
          = false →
      (RoleMappingService.create_role_mapping f db data).pushes = []) ∧
    (∀ (f : Faults) (db : List RoleMapping) (mid : Nat) (u : RoleMappingUpdate)
        (rm : RoleMapping),
      RoleMappingRepository.get_by_id db mid = some rm →
      resultIsOk (RoleMappingRepository.update f.storeFault db (applyUpdate rm u)).result
          = true →
      (RoleMappingService.update_role_mapping f db mid u).pushes =
        [("role_mappings",
          projectMappings (RoleMappingService.update_role_mapping f db mid u).db)]) ∧
    (∀ (f : Faults) (db : List RoleMapping) (mid : Nat) (u : RoleMappingUpdate)
        (rm : RoleMapping),
      RoleMappingRepository.get_by_id db mid = some rm →
      resultIsOk (RoleMappingRepository.update f.storeFault db (applyUpdate rm u)).result
          = false →
      (RoleMappingService.update_role_mapping f db mid u).pushes = []) ∧
    (∀ (f : Faults) (db : List RoleMapping) (mid : Nat) (u : RoleMappingUpdate),
      RoleMappingRepository.get_by_id db mid = none →
      (RoleMappingService.update_role_mapping f db mid u).pushes = []) ∧
    (∀ (f : Faults) (db : List RoleMapping) (mid : Nat),
      (RoleMappingRepository.delete f.storeFault db mid).result = .ok true →
      (RoleMappingService.delete_role_mapping f db mid).pushes =
        [("role_mappings",
          projectMappings (RoleMappingService.delete_role_mapping f db mid).db)]) ∧
    (∀ (f : Faults) (db : List RoleMapping) (mid : Nat),
      resultIsOk (RoleMappingRepository.delete f.storeFault db mid).result = false →
      (RoleMappingService.delete_role_mapping f db mid).pushes = []) := by
  refine ⟨?_, ?_, ?_, ?_, ?_, ?_, ?_⟩
  · intro f db data h
    rw [create_role_mapping_pushes, create_role_mapping_db]
    cases hres : (RoleMappingRepository.create f.storeFault db (newMappingOf db data)).result with
    | error e => rw [hres] at h; simp [resultIsOk] at h
    | ok created => rfl
  · intro f db data h
    rw [create_role_mapping_pushes]
    cases hres : (RoleMappingRepository.create f.storeFault db (newMappingOf db data)).result with
    | error e => rfl
    | ok created => rw [hres] at h; simp [resultIsOk] at h
  · intro f db mid u rm hfind h
    rw [update_role_mapping_pushes f db mid u rm hfind, update_role_mapping_db f db mid u rm hfind]
    cases hres : (RoleMappingRepository.update f.storeFault db (applyUpdate rm u)).result with
    | error e => rw [hres] at h; simp [resultIsOk] at h
    | ok updated => rfl
  · intro f db mid u rm hfind h
    rw [update_role_mapping_pushes f db mid u rm hfind]
    cases hres : (RoleMappingRepository.update f.storeFault db (applyUpdate rm u)).result with
    | error e => rfl
    | ok updated => rw [hres] at h; simp [resultIsOk] at h
  · intro f db mid u hfind
    simp [RoleMappingService.update_role_mapping, hfind]
  · intro f db mid h
    rw [delete_role_mapping_pushes, delete_role_mapping_db, h]
  · intro f db mid h
    rw [delete_role_mapping_pushes]
    cases hres : (RoleMappingRepository.delete f.storeFault db mid).result with
    | error e => rfl
    | ok b =>
      rw [hres] at h
      simp [resultIsOk] at h

theorem c1_sync_after_mutation_witness :
    ((RoleMappingService.create_role_mapping ⟨.ok, .response 200⟩
        [⟨1, "app-a", "DEV", "grp", "admin"⟩] ⟨"app-b", "DEV", "grp", "user"⟩).pushes =
      [("role_mappings", projectMappings
        (RoleMappingService.create_role_mapping ⟨.ok, .response 200⟩
          [⟨1, "app-a", "DEV", "grp", "admin"⟩] ⟨"app-b", "DEV", "grp", "user"⟩).db)]) ∧
    ((RoleMappingService.create_role_mapping ⟨.ok, .response 200⟩
        [⟨1, "app-a", "DEV", "grp", "admin"⟩] ⟨"app-a", "DEV", "grp", "user"⟩).pushes = []) ∧
    ((RoleMappingService.update_role_mapping ⟨.ok, .response 200⟩
        [⟨1, "app-a", "DEV", "grp", "admin"⟩] 1 ⟨none, none, some "user"⟩).pushes =
      [("role_mappings", projectMappings
        (RoleMappingService.update_role_mapping ⟨.ok, .response 200⟩
          [⟨1, "app-a", "DEV", "grp", "admin"⟩] 1 ⟨none, none, some "user"⟩).db)]) ∧
    ((RoleMappingService.update_role_mapping ⟨.sqlError "boom", .response 200⟩
        [⟨1, "app-a", "DEV", "grp", "admin"⟩] 1 ⟨none, none, some "user"⟩).pushes = []) ∧
    ((RoleMappingService.update_role_mapping ⟨.ok, .response 200⟩
        [⟨1, "app-a", "DEV", "grp", "admin"⟩] 99 ⟨none, none, some "user"⟩).pushes = []) ∧
    ((RoleMappingService.delete_role_mapping ⟨.ok, .response 200⟩
        [⟨1, "app-a", "DEV", "grp", "admin"⟩] 1).pushes =
      [("role_mappings", projectMappings
        (RoleMappingService.delete_role_mapping ⟨.ok, .response 200⟩
          [⟨1, "app-a", "DEV", "grp", "admin"⟩] 1).db)]) ∧
    ((RoleMappingService.delete_role_mapping ⟨.sqlError "boom", .response 200⟩
        [⟨1, "app-a", "DEV", "grp", "admin"⟩] 1).pushes = []) := by
  obtain ⟨h1, h2, h3, h4, h5, h6, h7⟩ := c1_sync_after_mutation
  exact ⟨h1 ⟨.ok, .response 200⟩ _ _ (by decide),
    h2 ⟨.ok, .response 200⟩ _ _ (by decide),
    h3 ⟨.ok, .response 200⟩ _ 1 _ ⟨1, "app-a", "DEV", "grp", "admin"⟩ (by decide) (by decide),
    h4 ⟨.sqlError "boom", .response 200⟩ _ 1 _ ⟨1, "app-a", "DEV", "grp", "admin"⟩
      (by decide) (by decide),
    h5 ⟨.ok, .response 200⟩ _ 99 _ (by decide),
    h6 ⟨.ok, .response 200⟩ _ 1 (by decide),
    h7 ⟨.sqlError "boom", .response 200⟩ _ 1 (by decide)⟩

/-! ## Store-read lemmas (C2, C8) -/

theorem foldl_max_le (db : List RoleMapping) (a : Nat) :
    a ≤ db.foldl (fun acc r => max acc r.id) a := by
  induction db generalizing a with
  | nil => exact Nat.le_refl a
  | cons r db ih => exact le_trans (Nat.le_max_left a r.id) (ih (max a r.id))

theorem mem_le_foldl_max (db : List RoleMapping) (a : Nat) (r : RoleMapping) (hr : r ∈ db) :
    r.id ≤ db.foldl (fun acc x => max acc x.id) a := by
  induction db generalizing a with
  | nil => cases hr
  | cons r0 db ih =>
    rcases List.mem_cons.mp hr with rfl | hr'
    · exact le_trans (Nat.le_max_right a r.id) (foldl_max_le db _)
    · exact ih _ hr'

theorem find?_append_left_none {α : Type} (p : α → Bool) (l1 l2 : List α)
    (h : ∀ x ∈ l1, p x = false) : (l1 ++ l2).find? p = l2.find? p := by
  induction l1 with
  | nil => rfl
  | cons x l1 ih =>
    rw [List.cons_append, List.find?_cons_of_neg _ (by simp [h x (List.mem_cons_self _ _)])]
    exact ih (fun y hy => h y (List.mem_cons_of_mem _ hy))

theorem get_by_id_snoc_fresh (db : List RoleMapping) (m : RoleMapping)
    (hid : m.id = nextId db) :
    RoleMappingRepository.get_by_id (db ++ [m]) m.id = some m := by
  unfold RoleMappingRepository.get_by_id
  rw [find?_append_left_none _ db [m] ?_]
  · simp [List.find?]
  · intro x hx
    simp only [beq_eq_false_iff_ne]
    intro hcon
    rw [hid] at hcon
    have := mem_le_foldl_max db 0 x hx
    unfold nextId at hcon
    omega

theorem get_by_id_id (db : List RoleMapping) (mid : Nat) (rm : RoleMapping)
    (h : RoleMappingRepository.get_by_id db mid = some rm) : rm.id = mid := by
  unfold RoleMappingRepository.get_by_id at h
  have := List.find?_some h
  simpa using this

theorem get_by_id_mem (db : List RoleMapping) (mid : Nat) (rm : RoleMapping)
    (h : RoleMappingRepository.get_by_id db mid = some rm) : rm ∈ db := by
  unfold RoleMappingRepository.get_by_id at h
  exact List.mem_of_find?_eq_some h

theorem find?_map_replace (db : List RoleMapping) (mid : Nat) (rm rm' : RoleMapping)
    (h : db.find? (fun r => r.id == mid) = some rm) (hid : rm'.id = mid) :
    (db.map (fun r => if r.id == rm'.id then rm' else r)).find? (fun r => r.id == mid)
      = some rm' := by
  induction db with
  | nil => simp at h
  | cons r0 db ih =>
    by_cases h0 : r0.id = mid
    · rw [List.map_cons,
        show (if r0.id == rm'.id then rm' else r0) = rm' from by simp [hid, h0],
        List.find?_cons_of_pos _ (by simp [hid])]
    · rw [List.find?_cons_of_neg _ (by simp [h0])] at h
      rw [List.map_cons,
        show (if r0.id == rm'.id then rm' else r0) = r0 from by simp [hid, h0],
        List.find?_cons_of_neg _ (by simp [h0])]
      exact ih h

theorem get_by_id_filter_ne (db : List RoleMapping) (mid : Nat) :
    RoleMappingRepository.get_by_id (db.filter (fun r => r.id != mid)) mid = none := by
  unfold RoleMappingRepository.get_by_id
  rw [List.find?_eq_none]
  intro x hx
  have h2 := (List.mem_filter.mp hx).2
  simp only [bne_iff_ne] at h2
  simp [h2]

/-! ## Error propagation through a failing sync (C2) -/

theorem sync_to_opa_fst (o : HttpOutcome) (db : List RoleMapping) :
    (RoleMappingService.sync_to_opa o db).1 =
      OPAService.push_policy_data o "role_mappings" (projectMappings db) := by
  simp [RoleMappingService.sync_to_opa, get_all_as_opa_data, dictLookup]

theorem create_errclass_sync_fail (f : Faults) (db : List RoleMapping)
    (data : RoleMappingCreate) (created : RoleMapping) (db2 : List RoleMapping)
    (hrepo : RoleMappingRepository.create f.storeFault db (newMappingOf db data)
      = ⟨.ok created, db2⟩)
    (hp : pushFails f.pushOutcome = true) :
    resultErrClass (RoleMappingService.create_role_mapping f db data).result
      = some .opaConnectionError := by
  simp only [RoleMappingService.create_role_mapping, hrepo]
  have hf := sync_to_opa_fst f.pushOutcome db2
  have hc := push_policy_data_fail_class f.pushOutcome "role_mappings"
    (projectMappings db2) hp
  rw [← hf] at hc
  rcases hs : RoleMappingService.sync_to_opa f.pushOutcome db2 with ⟨sr, pushes⟩
  rw [hs] at hc
  dsimp only at hc ⊢
  cases sr with
  | ok b => simp [resultErrClass] at hc
  | error e => exact hc

theorem update_errclass_sync_fail (f : Faults) (db : List RoleMapping) (mid : Nat)
    (u : RoleMappingUpdate) (rm updated : RoleMapping) (db2 : List RoleMapping)
    (hfind : RoleMappingRepository.get_by_id db mid = some rm)
    (hrepo : RoleMappingRepository.update f.storeFault db (applyUpdate rm u)
      = ⟨.ok updated, db2⟩)
    (hp : pushFails f.pushOutcome = true) :
    resultErrClass (RoleMappingService.update_role_mapping f db mid u).result
      = some .opaConnectionError := by
  simp only [RoleMappingService.update_role_mapping, hfind, hrepo]
  have hf := sync_to_opa_fst f.pushOutcome db2
  have hc := push_policy_data_fail_class f.pushOutcome "role_mappings"
    (projectMappings db2) hp
  rw [← hf] at hc
  rcases hs : RoleMappingService.sync_to_opa f.pushOutcome db2 with ⟨sr, pushes⟩
  rw [hs] at hc
  dsimp only at hc ⊢
  cases sr with
  | ok b => simp [resultErrClass] at hc
  | error e => exact hc

theorem delete_errclass_sync_fail (f : Faults) (db : List RoleMapping) (mid : Nat)
    (db2 : List RoleMapping)
    (hrepo : RoleMappingRepository.delete f.storeFault db mid = ⟨.ok true, db2⟩)
    (hp : pushFails f.pushOutcome = true) :
    resultErrClass (RoleMappingService.delete_role_mapping f db mid).result
      = some .opaConnectionError := by
  simp only [RoleMappingService.delete_role_mapping, hrepo]
  have hf := sync_to_opa_fst f.pushOutcome db2
  have hc := push_policy_data_fail_class f.pushOutcome "role_mappings"
    (projectMappings db2) hp
  rw [← hf] at hc
  rcases hs : RoleMappingService.sync_to_opa f.pushOutcome db2 with ⟨sr, pushes⟩
  rw [hs] at hc
  dsimp only at hc ⊢
  cases sr with
  | ok b => simp [resultErrClass] at hc
  | error e => exact hc

/-- C2: for each mutating operation, when the store write succeeds but the
engine push fails, the store mutation is not rolled back (a subsequent
get_by_id observes the mutated state) and the operation raises the engine
sync error (OPAConnectionError), distinct from the store error class, so
the caller can tell "data saved but not yet live" from "data not saved". -/
theorem c2_store_kept_on_sync_failure :
    (∀ (f : Faults) (db : List RoleMapping) (data : RoleMappingCreate),
      f.storeFault = .ok →
      tripleExists db (newMappingOf db data) = false →
      pushFails f.pushOutcome = true →
      resultErrClass (RoleMappingService.create_role_mapping f db data).result
          = some .opaConnectionError ∧
      (RoleMappingService.create_role_mapping f db data).db
          = db ++ [newMappingOf db data] ∧
      RoleMappingRepository.get_by_id (RoleMappingService.create_role_mapping f db data).db
          (newMappingOf db data).id = some (newMappingOf db data)) ∧
    (∀ (f : Faults) (db : List RoleMapping) (mid : Nat) (u : RoleMappingUpdate)
        (rm : RoleMapping),
      f.storeFault = .ok →
      RoleMappingRepository.get_by_id db mid = some rm →
      db.any (fun r => r.id != (applyUpdate rm u).id &&
        tripleKey r == tripleKey (applyUpdate rm u)) = false →
      pushFails f.pushOutcome = true →
      resultErrClass (RoleMappingService.update_role_mapping f db mid u).result
          = some .opaConnectionError ∧
      RoleMappingRepository.get_by_id
        (RoleMappingService.update_role_mapping f db mid u).db mid
          = some (applyUpdate rm u)) ∧
    (∀ (f : Faults) (db : List RoleMapping) (mid : Nat) (rm : RoleMapping),
      f.storeFault = .ok →
      RoleMappingRepository.get_by_id db mid = some rm →
      pushFails f.pushOutcome = true →
      resultErrClass (RoleMappingService.delete_role_mapping f db mid).result
          = some .opaConnectionError ∧
      RoleMappingRepository.get_by_id
        (RoleMappingService.delete_role_mapping f db mid).db mid = none) := by
  refine ⟨?_, ?_, ?_⟩
  · intro f db data hsf hdup hp
    have hrepo : RoleMappingRepository.create f.storeFault db (newMappingOf db data)
        = ⟨.ok (newMappingOf db data), db ++ [newMappingOf db data]⟩ := by
      rw [hsf]
      simp [RoleMappingRepository.create, hdup]
    refine ⟨create_errclass_sync_fail f db data _ _ hrepo hp, ?_, ?_⟩
    · rw [create_role_mapping_db, hrepo]
    · rw [create_role_mapping_db, hrepo]
      exact get_by_id_snoc_fresh db (newMappingOf db data) rfl
  · intro f db mid u rm hsf hfind hguard hp
    have hrepo : RoleMappingRepository.update f.storeFault db (applyUpdate rm u)
        = ⟨.ok (applyUpdate rm u),
            db.map (fun r => if r.id == (applyUpdate rm u).id then applyUpdate rm u else r)⟩ := by
      rw [hsf]
      simp [RoleMappingRepository.update, hguard]
    refine ⟨update_errclass_sync_fail f db mid u rm _ _ hfind hrepo hp, ?_⟩
    rw [update_role_mapping_db f db mid u rm hfind, hrepo]
    exact find?_map_replace db mid rm (applyUpdate rm u) hfind
      (get_by_id_id db mid rm hfind)
  · intro f db mid rm hsf hfind hp
    have hrepo : RoleMappingRepository.delete f.storeFault db mid
        = ⟨.ok true, db.filter (fun r => r.id != mid)⟩ := by
      rw [hsf]
      simp [RoleMappingRepository.delete, hfind]
    refine ⟨delete_errclass_sync_fail f db mid _ hrepo hp, ?_⟩
    rw [delete_role_mapping_db, hrepo]
    exact get_by_id_filter_ne db mid

theorem c2_store_kept_on_sync_failure_witness :
    (resultErrClass (RoleMappingService.create_role_mapping ⟨.ok, .response 500⟩
        [⟨1, "app-a", "DEV", "grp", "admin"⟩] ⟨"app-b", "DEV", "grp", "user"⟩).result
        = some .opaConnectionError ∧
      (RoleMappingService.create_role_mapping ⟨.ok, .response 500⟩
        [⟨1, "app-a", "DEV", "grp", "admin"⟩] ⟨"app-b", "DEV", "grp", "user"⟩).db
        = [⟨1, "app-a", "DEV", "grp", "admin"⟩] ++
          [newMappingOf [⟨1, "app-a", "DEV", "grp", "admin"⟩] ⟨"app-b", "DEV", "grp", "user"⟩] ∧
      RoleMappingRepository.get_by_id
        (RoleMappingService.create_role_mapping ⟨.ok, .response 500⟩
          [⟨1, "app-a", "DEV", "grp", "admin"⟩] ⟨"app-b", "DEV", "grp", "user"⟩).db
        (newMappingOf [⟨1, "app-a", "DEV", "grp", "admin"⟩] ⟨"app-b", "DEV", "grp", "user"⟩).id
        = some (newMappingOf [⟨1, "app-a", "DEV", "grp", "admin"⟩]
            ⟨"app-b", "DEV", "grp", "user"⟩)) ∧
    (resultErrClass (RoleMappingService.update_role_mapping ⟨.ok, .transportError "down"⟩
        [⟨1, "app-a", "DEV", "grp", "admin"⟩] 1 ⟨none, none, some "user"⟩).result
        = some .opaConnectionError ∧
      RoleMappingRepository.get_by_id
        (RoleMappingService.update_role_mapping ⟨.ok, .transportError "down"⟩
          [⟨1, "app-a", "DEV", "grp", "admin"⟩] 1 ⟨none, none, some "user"⟩).db 1
        = some (applyUpdate ⟨1, "app-a", "DEV", "grp", "admin"⟩ ⟨none, none, some "user"⟩)) ∧
    (resultErrClass (RoleMappingService.delete_role_mapping ⟨.ok, .response 500⟩
        [⟨1, "app-a", "DEV", "grp", "admin"⟩] 1).result = some .opaConnectionError ∧
      RoleMappingRepository.get_by_id
        (RoleMappingService.delete_role_mapping ⟨.ok, .response 500⟩
          [⟨1, "app-a", "DEV", "grp", "admin"⟩] 1).db 1 = none) := by
  obtain ⟨h1, h2, h3⟩ := c2_store_kept_on_sync_failure
  exact ⟨h1 ⟨.ok, .response 500⟩ _ _ rfl (by decide) (by decide),
    h2 ⟨.ok, .transportError "down"⟩ _ 1 ⟨none, none, some "user"⟩
      ⟨1, "app-a", "DEV", "grp", "admin"⟩ rfl (by decide) (by decide) (by decide),
    h3 ⟨.ok, .response 500⟩ _ 1 ⟨1, "app-a", "DEV", "grp", "admin"⟩ rfl (by decide) (by decide)⟩

/-- C6 counterexample: the conflict failure (duplicate triple) and any
other persistence failure (here an injected connection loss) are raised
as the very same exception class DatabaseError — there is no distinct
conflict type; the two cases differ only in their message payloads. -/
theorem c6_conflict_type_counterexample :
    resultErrClass (RoleMappingRepository.create .ok
        [⟨1, "app-a", "DEV", "grp-admin", "admin"⟩]
        ⟨2, "app-a", "DEV", "grp-admin", "user"⟩).result = some .databaseError ∧
    resultErrClass (RoleMappingRepository.create (.sqlError "connection lost")
        [⟨1, "app-a", "DEV", "grp-admin", "admin"⟩]
        ⟨2, "app-b", "DEV", "grp-admin", "user"⟩).result = some .databaseError ∧
    resultErrClass (RoleMappingRepository.create .ok
        [⟨1, "app-a", "DEV", "grp-admin", "admin"⟩]
        ⟨2, "app-a", "DEV", "grp-admin", "user"⟩).result =
      resultErrClass (RoleMappingRepository.create (.sqlError "connection lost")
        [⟨1, "app-a", "DEV", "grp-admin", "admin"⟩]
        ⟨2, "app-b", "DEV", "grp-admin", "user"⟩).result := by
  decide

/-- C6 (amended): store create fails with DatabaseError carrying the
conflict message whenever the inserted triple already exists, and with
the same exception class DatabaseError (different message) on any other
persistence failure — conflicts are distinguished by message, not by
type; on either failure the store contents are unchanged (rolled back). -/
theorem c6_conflict_same_class_rollback (db : List RoleMapping) (m : RoleMapping)
    (h : tripleExists db m = true) :
    ((RoleMappingRepository.create .ok db m).result
        = .error (.databaseError (conflictMessage m) "IntegrityError") ∧
      (RoleMappingRepository.create .ok db m).db = db) ∧
    (∀ (e : String) (db' : List RoleMapping) (m' : RoleMapping),
      (RoleMappingRepository.create (.sqlError e) db' m').result
          = .error (.databaseError "Failed to create role mapping" e) ∧
      (RoleMappingRepository.create (.sqlError e) db' m').db = db') ∧
    resultErrClass (RoleMappingRepository.create .ok db m).result = some .databaseError := by
  refine ⟨⟨?_, ?_⟩, fun e db' m' => ⟨rfl, rfl⟩, ?_⟩ <;>
    simp [RoleMappingRepository.create, h, resultErrClass, AppErr.cls]

theorem c6_conflict_same_class_rollback_witness :
    tripleExists [⟨1, "app-a", "DEV", "grp-admin", "admin"⟩]
      ⟨2, "app-a", "DEV", "grp-admin", "user"⟩ = true ∧
    (((RoleMappingRepository.create .ok [⟨1, "app-a", "DEV", "grp-admin", "admin"⟩]
        ⟨2, "app-a", "DEV", "grp-admin", "user"⟩).result
        = .error (.databaseError
            (conflictMessage ⟨2, "app-a", "DEV", "grp-admin", "user"⟩) "IntegrityError") ∧
      (RoleMappingRepository.create .ok [⟨1, "app-a", "DEV", "grp-admin", "admin"⟩]
        ⟨2, "app-a", "DEV", "grp-admin", "user"⟩).db
        = [⟨1, "app-a", "DEV", "grp-admin", "admin"⟩]) ∧
    (∀ (e : String) (db' : List RoleMapping) (m' : RoleMapping),
      (RoleMappingRepository.create (.sqlError e) db' m').result
          = .error (.databaseError "Failed to create role mapping" e) ∧
      (RoleMappingRepository.create (.sqlError e) db' m').db = db') ∧
    resultErrClass (RoleMappingRepository.create .ok
      [⟨1, "app-a", "DEV", "grp-admin", "admin"⟩]
      ⟨2, "app-a", "DEV", "grp-admin", "user"⟩).result = some .databaseError) :=
  ⟨by decide, c6_conflict_same_class_rollback _ _ (by decide)⟩

/-! ## Partial update (C8) -/

theorem update_result_sync_ok (f : Faults) (db : List RoleMapping) (mid : Nat)
    (u : RoleMappingUpdate) (rm updated : RoleMapping) (db2 : List RoleMapping)
    (hfind : RoleMappingRepository.get_by_id db mid = some rm)
    (hrepo : RoleMappingRepository.update f.storeFault db (applyUpdate rm u)
      = ⟨.ok updated, db2⟩)
    (hp : pushFails f.pushOutcome = false) :
    (RoleMappingService.update_role_mapping f db mid u).result = .ok updated := by
  simp only [RoleMappingService.update_role_mapping, hfind, hrepo]
  have hf := sync_to_opa_fst f.pushOutcome db2
  rw [push_policy_data_ok f.pushOutcome "role_mappings" (projectMappings db2) hp] at hf
  rcases hs : RoleMappingService.sync_to_opa f.pushOutcome db2 with ⟨sr, pushes⟩
  rw [hs] at hf
  dsimp only at hf ⊢
  subst hf
  rfl

/-- C8: updating an existing mapping with a payload in which only role is
set leaves environment, ad_group and application_id (and the id)
unchanged: the operation returns the record with the new role and all
other fields as before, and a subsequent read observes the same. -/
theorem c8_partial_update_frame (o : HttpOutcome) (db : List RoleMapping) (mid : Nat)
    (rm : RoleMapping) (r : String)
    (hfind : RoleMappingRepository.get_by_id db mid = some rm)
    (huniq : db.Pairwise (fun x y => tripleKey x ≠ tripleKey y))
    (hpush : pushFails o = false) :
    (RoleMappingService.update_role_mapping ⟨.ok, o⟩ db mid ⟨none, none, some r⟩).result
        = .ok { rm with role := r } ∧
    RoleMappingRepository.get_by_id
      (RoleMappingService.update_role_mapping ⟨.ok, o⟩ db mid ⟨none, none, some r⟩).db mid
        = some { rm with role := r } := by
  have hrm : rm ∈ db := get_by_id_mem db mid rm hfind
  have hguard : db.any (fun x => x.id != (applyUpdate rm ⟨none, none, some r⟩).id &&
      tripleKey x == tripleKey (applyUpdate rm ⟨none, none, some r⟩)) = false := by
    rw [List.any_eq_false]
    intro x hx
    simp only [Bool.and_eq_true, bne_iff_ne, beq_iff_eq]
    rintro ⟨hne, hkey⟩
    have hid2 : (applyUpdate rm ⟨none, none, some r⟩).id = rm.id := rfl
    have hxrm : x ≠ rm := by
      intro hcon
      apply hne
      rw [hid2, hcon]
    have hR := List.Pairwise.forall
      (fun (a b : RoleMapping) (hab : tripleKey a ≠ tripleKey b)
        (heq : tripleKey b = tripleKey a) => hab heq.symm) huniq
    exact hR hx hrm hxrm hkey
  have hrepo : RoleMappingRepository.update (Faults.mk .ok o).storeFault db
      (applyUpdate rm ⟨none, none, some r⟩)
      = ⟨.ok (applyUpdate rm ⟨none, none, some r⟩),
          db.map (fun x => if x.id == (applyUpdate rm ⟨none, none, some r⟩).id
            then applyUpdate rm ⟨none, none, some r⟩ else x)⟩ := by
    simp [RoleMappingRepository.update, hguard]
  constructor
  · exact update_result_sync_ok ⟨.ok, o⟩ db mid ⟨none, none, some r⟩ rm
      (applyUpdate rm ⟨none, none, some r⟩) _ hfind hrepo hpush
  · rw [update_role_mapping_db ⟨.ok, o⟩ db mid ⟨none, none, some r⟩ rm hfind, hrepo]
    exact find?_map_replace db mid rm (applyUpdate rm ⟨none, none, some r⟩) hfind
      (get_by_id_id db mid rm hfind)

theorem c8_partial_update_frame_witness :
    RoleMappingRepository.get_by_id
      [⟨1, "app-a", "DEV", "grp", "admin"⟩, ⟨2, "app-b", "PROD", "grp2", "user"⟩] 2
      = some ⟨2, "app-b", "PROD", "grp2", "user"⟩ ∧
    ((RoleMappingService.update_role_mapping ⟨.ok, .response 204⟩
        [⟨1, "app-a", "DEV", "grp", "admin"⟩, ⟨2, "app-b", "PROD", "grp2", "user"⟩] 2
        ⟨none, none, some "admin"⟩).result = .ok ⟨2, "app-b", "PROD", "grp2", "admin"⟩ ∧
      RoleMappingRepository.get_by_id
        (RoleMappingService.update_role_mapping ⟨.ok, .response 204⟩
          [⟨1, "app-a", "DEV", "grp", "admin"⟩, ⟨2, "app-b", "PROD", "grp2", "user"⟩] 2
          ⟨none, none, some "admin"⟩).db 2 = some ⟨2, "app-b", "PROD", "grp2", "admin"⟩) :=
  ⟨by decide, c8_partial_update_frame (.response 204) _ 2 ⟨2, "app-b", "PROD", "grp2", "user"⟩
    "admin" (by decide) (by decide) (by decide)⟩
